import Mathlib

/-!
Shallow embedding of the trajectory-analysis core (src/contacts.py and
src/trajectory.py): the contact data model, the frame evaluator, the window
summarizer, the formation-order classifier, and the cluster-count adjustment
loop of the contact clustering engine.  Machine floats of the source are
modelled as exact rationals; the strict comparison of a Euclidean norm against
a threshold is modelled by the equivalent comparison of the squared norm
(proved equivalent over the reals in the frame-evaluator theorem).
-/

/-- A point in 3-D space: the CA coordinates of one residue. -/
abbrev Point := ℚ × ℚ × ℚ

/-- A native contact row of the reference table: residue indices `i`, `j`,
native distance `r`, and cluster id (`0` = unassigned).
Mirrors the columns required by `Trajectory.__init__`. -/
structure Contact where
  i : Int
  j : Int
  r : ℚ
  cluster : Nat
deriving DecidableEq, Repr

/-- Squared Euclidean distance between two points; the source computes
`np.linalg.norm(coord_i - coord_j)` and compares it with `r * cutoff`;
we compare the square against the squared threshold, which is equivalent
for the strict order (see `contactFormed_iff_dist_lt`). -/
def distSq (p q : Point) : ℚ :=
  (p.1 - q.1) ^ 2 + (p.2.1 - q.2.1) ^ 2 + (p.2.2 - q.2.2) ^ 2

/-- One frame's coordinates: a partial map from residue index to CA position
(`residue_coords` in `_read_pdb_manual`). -/
abbrev Coords := Int → Option Point

/-- `Trajectory.read_trajectory` inner test: a contact is formed iff both
residues are present in the frame and the Euclidean distance is strictly
below `r * cutoff_distance`.  `dist < t` is encoded as
`0 < t ∧ dist^2 < t^2` (equivalent since the norm is nonnegative). -/
def contactFormed (cutoff : ℚ) (coords : Coords) (c : Contact) : Bool :=
  match coords c.i, coords c.j with
  | some p, some q =>
      decide (0 < c.r * cutoff) && decide (distSq p q < (c.r * cutoff) ^ 2)
  | _, _ => false

/-- `ContactMap._are_adjacent_contacts`: Manhattan distance 1, or diagonal
adjacency. -/
def are_adjacent_contacts (c1 c2 : Int × Int) : Bool :=
  if (c1.1 - c2.1).natAbs + (c1.2 - c2.2).natAbs = 1 then true
  else decide ((c1.1 - c2.1).natAbs = 1 ∧ (c1.2 - c2.2).natAbs = 1)

/-- Per-frame result row produced by `Trajectory.read_trajectory`:
frame id, formed-contact count, `q`, the list of formed pairs, and the
per-cluster filling-fraction map. -/
structure FrameResult where
  frame : Int
  contacts : Nat
  q : ℚ
  contact_list : List (Int × Int)
  clusters_filling : List (Nat × ℚ)
deriving DecidableEq, Repr, Inhabited

/-- `cluster_sizes[k]`: number of native contacts carrying cluster id `k`
(precomputed in `Trajectory.__init__`). -/
def clusterSize (ncs : List Contact) (k : Nat) : Nat :=
  (ncs.filter (fun c => c.cluster == k)).length

/-- The distinct cluster ids of the contact set in ascending order
(`sorted(self.cluster_contacts.keys())`; dict-key order is irrelevant to the
map semantics, so the sorted order used by `summarize_trajectory` is used
throughout). -/
def sortedClusterKeys (ncs : List Contact) : List Nat :=
  ((ncs.map (fun c => c.cluster)).dedup).insertionSort (· ≤ ·)

/-- The running `cluster_counts[k] += 1` accumulation of
`Trajectory.read_trajectory`, as a left fold over the native contacts. -/
def clusterCount (cutoff : ℚ) (coords : Coords) (ncs : List Contact) (k : Nat) : Nat :=
  ncs.foldl
    (fun acc c => if contactFormed cutoff coords c && (c.cluster == k) then acc + 1 else acc) 0

/-- The per-frame body of `Trajectory.read_trajectory`: formed contacts in
table order, `q` guarded by `total_contacts > 0`, and the per-cluster filling
fractions guarded by `cluster_size > 0`. -/
def evaluateFrame (ncs : List Contact) (cutoff : ℚ) (frame : Int) (coords : Coords) :
    FrameResult :=
  let existing := (ncs.filter (contactFormed cutoff coords)).map (fun c => (c.i, c.j))
  let total := ncs.length
  let qv : ℚ := if 0 < total then (existing.length : ℚ) / (total : ℚ) else 0
  let fillings := (sortedClusterKeys ncs).map (fun k =>
    let size := clusterSize ncs k
    (k, if 0 < size then (clusterCount cutoff coords ncs k : ℚ) / (size : ℚ) else 0))
  ⟨frame, existing.length, qv, existing, fillings⟩

/-- Concrete frame coordinates for witnesses: residues 1 and 5 present
(close together), the rest absent. -/
def wCoords : Coords := fun n =>
  if n = 1 then some (0, 0, 0) else if n = 5 then some (1, 0, 0) else none

instance : DecidableRel (fun (a b : FrameResult) => a.frame ≤ b.frame) :=
  fun a b => Int.decLe a.frame b.frame

instance : IsTotal FrameResult (fun a b => a.frame ≤ b.frame) :=
  ⟨fun a b => Int.le_total a.frame b.frame⟩

instance : IsTrans FrameResult (fun a b => a.frame ≤ b.frame) :=
  ⟨fun _ _ _ hab hbc => le_trans hab hbc⟩

/-- `df.sort_values('frame')`: the frame results in ascending frame-id order.
The frame ids of a scanned trajectory are distinct (dict keys), so any
correct sort produces the same list as the source's. -/
def sortByFrame (df : List FrameResult) : List FrameResult :=
  df.insertionSort (fun a b => a.frame ≤ b.frame)

/-- The ascending distinct frame ids of the raw frame data
(`sorted(frames_data.keys())`). -/
def sortedFrameKeys (framesData : List (Int × Coords)) : List Int :=
  ((framesData.map Prod.fst).dedup).insertionSort (· ≤ ·)

/-- Coordinates for a frame id; a later record with the same id silently
overwrites an earlier one (dict update order in `_read_pdb_manual`). -/
def coordsFor (framesData : List (Int × Coords)) (k : Int) : Coords :=
  (framesData.reverse.lookup k).getD (fun _ => none)

/-- The frame-processing loop of `Trajectory.read_trajectory`: evaluate every
frame in ascending frame-id order. -/
def processFrames (ncs : List Contact) (cutoff : ℚ) (framesData : List (Int × Coords)) :
    List FrameResult :=
  (sortedFrameKeys framesData).map (fun k => evaluateFrame ncs cutoff k (coordsFor framesData k))

/-- `Trajectory.read_trajectory`: an empty trajectory returns `None`
(no frame results, no exception); otherwise the evaluated frame results. -/
def read_trajectory (ncs : List Contact) (cutoff : ℚ) (framesData : List (Int × Coords)) :
    Option (List FrameResult) :=
  if framesData.isEmpty then none else some (processFrames ncs cutoff framesData)

/-- Number of windows: `(total_frames + window_size - 1) // window_size`. -/
def numWindows (n ws : Nat) : Nat := (n + ws - 1) / ws

/-- The `w`-th window slice `df.iloc[w*ws : min((w+1)*ws, n)]`. -/
def chunk (l : List FrameResult) (ws w : Nat) : List FrameResult :=
  (l.drop (w * ws)).take ws

/-- Window summary table: one column per cluster id, one row per window keyed
by the frame id of the window's first member. -/
structure Summary where
  cols : List Nat
  rows : List (Int × List ℚ)
deriving DecidableEq, Repr

instance {ε α : Type} [DecidableEq ε] [DecidableEq α] : DecidableEq (Except ε α) :=
  fun a b =>
    match a, b with
    | .error x, .error y =>
      if h : x = y then isTrue (by rw [h]) else isFalse (fun hc => by cases hc; exact h rfl)
    | .error _, .ok _ => isFalse (fun hc => by cases hc)
    | .ok _, .error _ => isFalse (fun hc => by cases hc)
    | .ok x, .ok y =>
      if h : x = y then isTrue (by rw [h]) else isFalse (fun hc => by cases hc; exact h rfl)

/-- `Trajectory.summarize_trajectory`: empty input is an error; otherwise sort
by frame, partition into windows of `window_size`, average each cluster's
filling fraction over each window (`np.mean` = sum/length), and, if a cutoff
is supplied, binarize each value afterwards (`value >= cutoff` becomes 1). -/
def summarize (clusterNumbers : List Nat) (df : List FrameResult) (windowSize : Nat)
    (cutoff : Option ℚ) : Except String Summary :=
  if df.isEmpty then .error "DataFrame is empty. Cannot create summary."
  else
    let sorted := sortByFrame df
    let floatRows : List (Int × List ℚ) :=
      (List.range (numWindows sorted.length windowSize)).map (fun w =>
        let win := chunk sorted windowSize w
        ((win.headD default).frame,
          clusterNumbers.map (fun c =>
            let cv := win.map (fun fr => (fr.clusters_filling.lookup c).getD 0)
            cv.sum / (cv.length : ℚ))))
    let rows := match cutoff with
      | none => floatRows
      | some t => floatRows.map (fun r => (r.1, r.2.map (fun v => if t ≤ v then 1 else 0)))
    .ok ⟨clusterNumbers, rows⟩

/-- Frame results for scenario B: cluster-1 filling values 0.4, 0.6, 1.0 at
frames 0, 10, 20. -/
def scenB : List FrameResult :=
  [⟨0, 0, 0, [], [(1, 2/5)]⟩, ⟨10, 0, 0, [], [(1, 3/5)]⟩, ⟨20, 0, 0, [], [(1, 1)]⟩]

/-- A contact pair on the 2-D contact map, as used by the clustering engine. -/
abbrev ContactPair := Int × Int

/-- The external fixed-seed 2-way partition strategy behind
`KMeans(n_clusters=2, random_state=42).fit_predict` (an external collaborator:
the spec requires only a deterministic two-way partition of 2-D points). -/
abbrev SplitStrategy := List ContactPair → List ContactPair × List ContactPair

/-- `ContactMap._split_cluster`: clusters of fewer than 4 members are returned
whole; a 2-way partition leaving either side with fewer than 2 members is
rejected and the cluster returned whole; otherwise both sides are returned. -/
def split_cluster (split2 : SplitStrategy) (cluster : List ContactPair) :
    List (List ContactPair) :=
  if cluster.length < 4 then [cluster]
  else
    let c1 := (split2 cluster).1
    let c2 := (split2 cluster).2
    if c1.length < 2 ∨ c2.length < 2 then [cluster] else [c1, c2]

/-- `max(range(len(result_clusters)), key=...)`: index of the first largest
cluster in the list. -/
def largestIdx (cs : List (List ContactPair)) : Nat :=
  (List.range cs.length).foldl
    (fun best i => if (cs.getD best []).length < (cs.getD i []).length then i else best) 0

/-- One fuel-bounded unfolding of the `while len(result_clusters) <
target_number` loop of `ContactMap._split_clusters_to_number`.  `some` is the
cluster list the loop exits with; `none` means the fuel ran out with the loop
still running. -/
def splitLoop (split2 : SplitStrategy) (target : Nat) :
    Nat → List (List ContactPair) → Option (List (List ContactPair))
  | 0, _ => none
  | fuel + 1, cs =>
    if target ≤ cs.length then some cs
    else
      let idx := largestIdx cs
      let largest := cs.getD idx []
      if largest.length < 4 then some cs
      else splitLoop split2 target fuel (cs.eraseIdx idx ++ split_cluster split2 largest)

/-- `ContactMap._split_clusters_to_number`: with enough clusters, keep the
`target` largest (stable descending sort by size); otherwise run the
fuel-bounded splitting loop. -/
def split_clusters_to_number (split2 : SplitStrategy) (fuel : Nat)
    (clusters : List (List ContactPair)) (target : Nat) :
    Option (List (List ContactPair)) :=
  if target ≤ clusters.length then
    some ((clusters.insertionSort (fun a b => b.length ≤ a.length)).take target)
  else splitLoop split2 target fuel clusters

instance : DecidableRel (fun (a b : List ContactPair) => b.length ≤ a.length) :=
  fun a b => Nat.decLe b.length a.length

/-- A 4-member candidate whose best 2-means partition isolates the outlier
`(100,100)`: the partition is rejected (one side has a single member). -/
def stuckCluster : List ContactPair := [(0, 0), (0, 1), (1, 0), (100, 100)]

/-- The deterministic 2-means result on `stuckCluster`: the three mutually
close points versus the far outlier. -/
def stuckSplit : SplitStrategy := fun _ => ([(0, 0), (0, 1), (1, 0)], [(100, 100)])

/-- The non-zero cluster ids of the summary's columns
(`col.startswith('cluster_') and col != 'cluster_0'`). -/
def clusterColumns (s : Summary) : List Nat := s.cols.filter (fun c => c != 0)

/-- The value of one summary row at the column of cluster `c`. -/
def rowVal (cols : List Nat) (vals : List ℚ) (c : Nat) : ℚ :=
  ((cols.zip vals).lookup c).getD 0

/-- The set of clusters equal to 1 in a row, as an ascending duplicate-free
list (the canonical form of the Python set; `sorted(...)` is applied whenever
the source serializes such a set). -/
def formedClusters (cc cols : List Nat) (vals : List ℚ) : List Nat :=
  ((cc.filter (fun c => decide (rowVal cols vals c = 1))).dedup).insertionSort (· ≤ ·)

/-- Set difference on the canonical list representation
(`currently_formed - formed_at_frame`). -/
def setDiff (l1 l2 : List Nat) : List Nat := l1.filter (fun c => !(l2.contains c))

/-- `(summary_df[cluster_columns] == 1).all(axis=1)` for one row. -/
def allFormedRow (cc cols : List Nat) (vals : List ℚ) : Bool :=
  cc.all (fun c => decide (rowVal cols vals c = 1))

/-- `(summary_df[cluster_columns] == 1).sum(axis=1)` for one row. -/
def formedCountRow (cc cols : List Nat) (vals : List ℚ) : Nat :=
  (cc.filter (fun c => decide (rowVal cols vals c = 1))).length

instance : DecidableRel (fun (a b : Int × List ℚ) => a.1 ≤ b.1) :=
  fun a b => Int.decLe a.1 b.1

/-- `summary_df.sort_index()`: rows in ascending window-key order (window keys
of a produced summary are distinct, so any correct sort agrees with the
source's). -/
def sortRows (rows : List (Int × List ℚ)) : List (Int × List ℚ) :=
  rows.insertionSort (fun a b => a.1 ≤ b.1)

/-- Position of the first row satisfying `p` (the first `True` of a pandas
boolean mask). -/
def firstIdxFrom (p : Int × List ℚ → Bool) : List (Int × List ℚ) → Option Nat
  | [] => none
  | r :: rest => if p r then some 0 else (firstIdxFrom p rest).map (· + 1)

/-- The rows up to and including the first row satisfying `p` (the claim's
view: the windows from the earliest one through the anchor window). -/
def takeThroughFirst (p : Int × List ℚ → Bool) :
    List (Int × List ℚ) → Option (List (Int × List ℚ))
  | [] => none
  | r :: rest => if p r then some [r] else (takeThroughFirst p rest).map (r :: ·)

/-- Anchor selection of `Trajectory.classify`: the first row with all
non-zero clusters equal to 1; otherwise, if the maximum simultaneous count is
positive, the first row achieving it; otherwise no anchor (terminal failure).
-/
def anchorIndex (cc cols : List Nat) (rows : List (Int × List ℚ)) : Option Nat :=
  match firstIdxFrom (fun r => allFormedRow cc cols r.2) rows with
  | some i => some i
  | none =>
    let maxC := (rows.map (fun r => formedCountRow cc cols r.2)).foldl max 0
    if maxC = 0 then none
    else firstIdxFrom (fun r => formedCountRow cc cols r.2 == maxC) rows

/-- The claim-side anchor: the windows from the earliest through the anchor,
the anchor chosen as the earliest all-formed window, falling back to the
earliest window with the maximum count of simultaneously-1 clusters. -/
def anchorWindows (cc cols : List Nat) (rows : List (Int × List ℚ)) :
    Option (List (Int × List ℚ)) :=
  match takeThroughFirst (fun r => allFormedRow cc cols r.2) rows with
  | some pr => some pr
  | none =>
    let maxC := (rows.map (fun r => formedCountRow cc cols r.2)).foldl max 0
    if maxC = 0 then none
    else takeThroughFirst (fun r => formedCountRow cc cols r.2 == maxC) rows

/-- The backward `for idx in range(start_idx, -1, -1)` loop of
`Trajectory.classify`, recursing on the positional index: append the broken
clusters in ascending order, stop early once nothing remains formed, and after
visiting index 0 append whatever is still formed. -/
def classifyLoop (cc cols : List Nat) (rows : List (Int × List ℚ)) :
    Nat → List Nat → List Nat → List Nat
  | 0, currently, acc =>
    let fnow := formedClusters cc cols (rows.getD 0 (0, [])).2
    let acc2 := acc ++ setDiff currently fnow
    if fnow.isEmpty then acc2 else acc2 ++ fnow
  | idx + 1, currently, acc =>
    let fnow := formedClusters cc cols (rows.getD (idx + 1) (0, [])).2
    let acc2 := acc ++ setDiff currently fnow
    if fnow.isEmpty then acc2 else classifyLoop cc cols rows idx fnow acc2

/-- `Trajectory.classify`: error on a summary without non-zero cluster
columns; error (pandas `IndexError`) on a summary with no rows; error when no
cluster is ever formed; otherwise the reversed break sequence produced by the
backward scan from the anchor window. -/
def classify (s : Summary) : Except String (List Nat) :=
  let cc := clusterColumns s
  if cc.isEmpty then
    .error "No cluster columns found in summary DataFrame (excluding cluster_0)"
  else
    let rows := sortRows s.rows
    if rows.isEmpty then .error "index 0 is out of bounds"
    else
      match anchorIndex cc s.cols rows with
      | none =>
        .error "No clusters are formed in the trajectory. Cannot determine formation order."
      | some i =>
        let cur := formedClusters cc s.cols (rows.getD i (0, [])).2
        .ok ((classifyLoop cc s.cols rows i cur []).reverse)

/-- The claim-side backward scan, structurally recursive over the windows from
the anchor (head) down to the earliest (last): append clusters that drop from
formed to not-formed in ascending cluster-id order, stop early once no cluster
remains formed, and append the clusters still formed at the earliest window.
-/
def specScan (cc cols : List Nat) :
    List (Int × List ℚ) → List Nat → List Nat → List Nat
  | [], currently, acc => acc ++ currently
  | r :: rest, currently, acc =>
    let fnow := formedClusters cc cols r.2
    let acc2 := acc ++ setDiff currently fnow
    if fnow.isEmpty then acc2 else specScan cc cols rest fnow acc2

/-- The Formation-Order Classifier as worded by the claim: anchor on the
earliest all-formed window (falling back to the earliest window attaining the
maximum count of simultaneously-1 clusters, failing if that maximum is 0),
scan backward from the anchor, and return the break sequence reversed. -/
def classifySpec (s : Summary) : Option (List Nat) :=
  let cc := clusterColumns s
  if cc.isEmpty then none
  else
    let rows := sortRows s.rows
    match anchorWindows cc s.cols rows with
    | none => none
    | some pr =>
      match pr.reverse with
      | [] => none
      | a :: rest =>
        some ((specScan cc s.cols (a :: rest) (formedClusters cc s.cols a.2) []).reverse)

/-- The concrete binarized summary of scenario C: columns `cluster_1`,
`cluster_2`; rows frame 0 `[0,0]`, frame 10 `[1,0]`, frame 20 `[1,1]`. -/
def scenC : Summary := ⟨[1, 2], [(0, [0, 0]), (10, [1, 0]), (20, [1, 1])]⟩

/-- **C9.** The contact adjacency relation is symmetric: if `(i1,j1)` is
adjacent to `(i2,j2)` (Manhattan distance 1, or both coordinate gaps equal 1)
then `(i2,j2)` is adjacent to `(i1,j1)`. -/
theorem are_adjacent_contacts_symm (c1 c2 : Int × Int)
    (h : are_adjacent_contacts c1 c2 = true) :
    are_adjacent_contacts c2 c1 = true := by
  simp only [are_adjacent_contacts] at h ⊢
  split at h <;> split <;> simp_all <;> omega

/-- Witness for C9 at the concrete axis-aligned pair `(0,0)`, `(0,1)`. -/
theorem are_adjacent_contacts_symm_witness :
    are_adjacent_contacts (0, 0) (0, 1) = true ∧
      are_adjacent_contacts (0, 1) (0, 0) = true :=
  ⟨by decide, are_adjacent_contacts_symm (0, 0) (0, 1) (by decide)⟩

/-- **C4.** A contact is marked formed iff both residues have coordinates in
the frame and the Euclidean distance between them is strictly less than
`r * cutoff_distance`; a contact with a missing residue is counted as not
formed (no error is raised: `contactFormed` is total). -/
theorem contactFormed_iff_dist_lt (cutoff : ℚ) (coords : Coords) (c : Contact) :
    (contactFormed cutoff coords c = true ↔
      ∃ p q, coords c.i = some p ∧ coords c.j = some q ∧
        Real.sqrt ((distSq p q : ℚ) : ℝ) < ((c.r : ℝ) * (cutoff : ℝ))) ∧
    ((coords c.i = none ∨ coords c.j = none) → contactFormed cutoff coords c = false) := by
  constructor
  · unfold contactFormed
    cases hi : coords c.i with
    | none => simp [hi]
    | some p =>
      cases hj : coords c.j with
      | none => simp [hi, hj]
      | some q =>
        simp only [hi, hj, Bool.and_eq_true, decide_eq_true_eq, Option.some.injEq]
        constructor
        · rintro ⟨hpos, hlt⟩
          refine ⟨p, q, rfl, rfl, ?_⟩
          have hpos' : (0 : ℝ) < (c.r : ℝ) * (cutoff : ℝ) := by exact_mod_cast hpos
          rw [Real.sqrt_lt' hpos']
          exact_mod_cast hlt
        · rintro ⟨p', q', hp', hq', hlt⟩
          obtain rfl : p = p' := hp'
          obtain rfl : q = q' := hq'
          have hpos' : (0 : ℝ) < (c.r : ℝ) * (cutoff : ℝ) :=
            lt_of_le_of_lt (Real.sqrt_nonneg _) hlt
          rw [Real.sqrt_lt' hpos'] at hlt
          constructor
          · exact_mod_cast hpos'
          · exact_mod_cast hlt
  · intro h
    unfold contactFormed
    rcases h with h | h <;> rw [h] <;> cases coords c.i <;> cases coords c.j <;> rfl

/-- **C10.** With an empty Contact Set (total contact count 0) the frame
evaluator yields `q = 0` for every frame instead of a division error: the
`formed/total` division is guarded by `0 < total` and is not reached. -/
theorem evaluateFrame_empty_q_zero (cutoff : ℚ) (frame : Int) (coords : Coords) :
    (evaluateFrame [] cutoff frame coords).q = 0 ∧
      (evaluateFrame [] cutoff frame coords).contacts = 0 := by
  constructor <;> rfl

/-- Left-fold counting equals filtering then taking the length. -/
theorem foldl_count_eq_filter_length (p : Contact → Bool) :
    ∀ (l : List Contact) (a : Nat),
      l.foldl (fun acc c => if p c then acc + 1 else acc) a = a + (l.filter p).length := by
  intro l
  induction l with
  | nil => intro a; simp
  | cons x xs ih =>
    intro a
    by_cases hx : p x <;> simp [hx, ih, List.filter_cons] <;> omega

/-- Looking up a key in a map built by tagging each list element with a value
computed from it returns that computed value. -/
theorem lookup_map_self (f : Nat → ℚ) :
    ∀ (l : List Nat) (k : Nat), k ∈ l → (l.map (fun x => (x, f x))).lookup k = some (f k) := by
  intro l
  induction l with
  | nil => intro k hk; cases hk
  | cons x xs ih =>
    intro k hk
    rw [List.mem_cons] at hk
    by_cases hkx : k = x
    · subst hkx; simp [List.lookup]
    · rcases hk with rfl | hk
      · exact absurd rfl hkx
      · simpa [List.lookup, beq_false_of_ne hkx] using ih k hk

/-- **C8.** For a frame evaluated against a Contact Set with unique `(i,j)`
pairs, the Frame Result satisfies `0 ≤ q ≤ 1`, `formed_count` equals the
cardinality of the set of formed pairs, and each per-cluster filling fraction
equals the number of formed contacts of that cluster divided by the cluster
size, with `0` instead of a division error when the cluster size is `0`. -/
theorem evaluateFrame_invariants (ncs : List Contact) (cutoff : ℚ) (frame : Int)
    (coords : Coords) (hnd : (ncs.map (fun c => (c.i, c.j))).Nodup) :
    0 ≤ (evaluateFrame ncs cutoff frame coords).q ∧
    (evaluateFrame ncs cutoff frame coords).q ≤ 1 ∧
    (evaluateFrame ncs cutoff frame coords).contacts =
      (evaluateFrame ncs cutoff frame coords).contact_list.toFinset.card ∧
    ∀ k ∈ sortedClusterKeys ncs,
      (evaluateFrame ncs cutoff frame coords).clusters_filling.lookup k =
        some (if 0 < clusterSize ncs k then
          (((ncs.filter (fun c => contactFormed cutoff coords c && (c.cluster == k))).length : ℚ)
            / (clusterSize ncs k : ℚ))
        else 0) := by
  have hflen : ((ncs.filter (contactFormed cutoff coords)).map (fun c => (c.i, c.j))).length
      ≤ ncs.length := by
    rw [List.length_map]
    exact List.length_filter_le _ _
  refine ⟨?_, ?_, ?_, ?_⟩
  · unfold evaluateFrame
    simp only
    split
    · positivity
    · exact le_refl 0
  · unfold evaluateFrame
    simp only
    split
    · rename_i htot
      rw [div_le_one (by exact_mod_cast htot)]
      exact_mod_cast hflen
    · exact zero_le_one
  · unfold evaluateFrame
    simp only
    have hnd' : ((ncs.filter (contactFormed cutoff coords)).map (fun c => (c.i, c.j))).Nodup := by
      refine List.Nodup.sublist ?_ hnd
      exact List.Sublist.map _ (List.filter_sublist ncs)
    exact (List.toFinset_card_of_nodup hnd').symm
  · intro k hk
    unfold evaluateFrame
    simp only
    rw [lookup_map_self _ _ _ hk]
    congr 1
    split
    · congr 1
      unfold clusterCount
      rw [foldl_count_eq_filter_length]
      simp
    · rfl

/-- Witness for C8: two contacts with distinct pairs, one formed. -/
theorem evaluateFrame_invariants_witness :
    ((([⟨1, 5, 1, 1⟩, ⟨2, 6, 1, 2⟩] : List Contact).map (fun c => (c.i, c.j))).Nodup) ∧
    (0 ≤ (evaluateFrame [⟨1, 5, 1, 1⟩, ⟨2, 6, 1, 2⟩] 2 0 wCoords).q ∧
    (evaluateFrame [⟨1, 5, 1, 1⟩, ⟨2, 6, 1, 2⟩] 2 0 wCoords).q ≤ 1 ∧
    (evaluateFrame [⟨1, 5, 1, 1⟩, ⟨2, 6, 1, 2⟩] 2 0 wCoords).contacts =
      (evaluateFrame [⟨1, 5, 1, 1⟩, ⟨2, 6, 1, 2⟩] 2 0 wCoords).contact_list.toFinset.card ∧
    ∀ k ∈ sortedClusterKeys [⟨1, 5, 1, 1⟩, ⟨2, 6, 1, 2⟩],
      (evaluateFrame [⟨1, 5, 1, 1⟩, ⟨2, 6, 1, 2⟩] 2 0 wCoords).clusters_filling.lookup k =
        some (if 0 < clusterSize [⟨1, 5, 1, 1⟩, ⟨2, 6, 1, 2⟩] k then
          ((([⟨1, 5, 1, 1⟩, ⟨2, 6, 1, 2⟩].filter
              (fun c => contactFormed 2 wCoords c && (c.cluster == k))).length : ℚ)
            / (clusterSize [⟨1, 5, 1, 1⟩, ⟨2, 6, 1, 2⟩] k : ℚ))
        else 0)) :=
  ⟨by decide, evaluateFrame_invariants [⟨1, 5, 1, 1⟩, ⟨2, 6, 1, 2⟩] 2 0 wCoords (by decide)⟩

/-- **C3.** A source yielding zero frames makes the scanner produce zero frame
results and return `None` without raising, while the summarizer rejects an
empty frame-result sequence with an empty-input error and emits no window. -/
theorem empty_trajectory_behavior :
    (∀ (ncs : List Contact) (cutoff : ℚ), read_trajectory ncs cutoff [] = none) ∧
    (∀ (ncs : List Contact) (cutoff : ℚ), processFrames ncs cutoff [] = []) ∧
    (∀ (cn : List Nat) (ws : Nat) (cutoff : Option ℚ),
      summarize cn [] ws cutoff = .error "DataFrame is empty. Cannot create summary.") := by
  refine ⟨fun _ _ => rfl, fun _ _ => rfl, fun _ _ _ => rfl⟩

/-- **C6.** With a cutoff, every per-cluster window value of the summarizer is
1 iff the float-mode window mean is `≥ cutoff` and 0 otherwise, with
thresholding applied to the per-window means (never per-frame); in particular
window size 2 over cluster-1 fillings `[0.4, 0.6, 1.0]` gives means
`0.5, 1.0`, binarized with cutoff `0.5` to `1, 1`. -/
theorem summarize_binarize :
    (∀ (cn : List Nat) (df : List FrameResult) (ws : Nat) (t : ℚ), df ≠ [] →
      summarize cn df ws (some t) = (summarize cn df ws none).map (fun s =>
        ⟨s.cols, s.rows.map (fun r => (r.1, r.2.map (fun v => if t ≤ v then 1 else 0)))⟩)) ∧
    summarize [1] scenB 2 none = .ok ⟨[1], [(0, [1/2]), (20, [1])]⟩ ∧
    summarize [1] scenB 2 (some (1/2)) = .ok ⟨[1], [(0, [1]), (20, [1])]⟩ := by
  refine ⟨?_, ?_, ?_⟩
  · intro cn df ws t hdf
    have h : df.isEmpty = false := by simpa [List.isEmpty_iff] using hdf
    simp [summarize, h, Except.map, List.map_map, Function.comp]
  · norm_num [summarize, sortByFrame, chunk, numWindows, scenB, List.insertionSort,
      List.orderedInsert, List.lookup, List.range_succ]
  · norm_num [summarize, sortByFrame, chunk, numWindows, scenB, List.insertionSort,
      List.orderedInsert, List.lookup, List.range_succ]

/-- Witness for C6 at scenario B, discharging the non-emptiness hypothesis. -/
theorem summarize_binarize_witness :
    scenB ≠ [] ∧
    summarize [1] scenB 2 (some (1/2)) = (summarize [1] scenB 2 none).map (fun s =>
      ⟨s.cols, s.rows.map (fun r => (r.1, r.2.map (fun v => if (1 : ℚ)/2 ≤ v then 1 else 0)))⟩) :=
  ⟨by decide, summarize_binarize.1 [1] scenB 2 (1/2) (by decide)⟩

theorem numWindows_zero (ws : Nat) (hws : 0 < ws) : numWindows 0 ws = 0 := by
  unfold numWindows
  exact Nat.div_eq_of_lt (by omega)

theorem numWindows_pos_eq (ws n : Nat) (hws : 0 < ws) (hn : 0 < n) :
    numWindows n ws = (n - 1) / ws + 1 := by
  unfold numWindows
  have h1 : n + ws - 1 = (n - 1) + ws := by omega
  rw [h1, Nat.add_div_right _ hws]

theorem numWindows_succ (ws n : Nat) (hws : 0 < ws) (hn : 0 < n) :
    numWindows n ws = numWindows (n - ws) ws + 1 := by
  rw [numWindows_pos_eq ws n hws hn]
  rcases le_or_lt n ws with hle | hlt
  · have h0 : n - ws = 0 := by omega
    rw [h0, numWindows_zero ws hws]
    have hz : (n - 1) / ws = 0 := Nat.div_eq_of_lt (by omega)
    rw [hz]
  · have hp : 0 < n - ws := by omega
    rw [numWindows_pos_eq ws (n - ws) hws hp]
    have h1 : n - 1 = (n - ws - 1) + ws := by omega
    rw [h1, Nat.add_div_right _ hws]

theorem chunk_zero (l : List FrameResult) (ws : Nat) : chunk l ws 0 = l.take ws := by
  simp [chunk]

theorem chunk_succ (l : List FrameResult) (ws w : Nat) :
    chunk l ws (w + 1) = chunk (l.drop ws) ws w := by
  unfold chunk
  rw [List.drop_drop]
  have h : (w + 1) * ws = ws + w * ws := by rw [Nat.succ_mul, Nat.add_comm]
  rw [h]

theorem chunk_length (l : List FrameResult) (ws w : Nat) :
    (chunk l ws w).length = min ws (l.length - w * ws) := by
  simp [chunk]

/-- The windows of the summarizer partition the sorted frame sequence: their
concatenation in window order is the whole sequence. -/
theorem chunks_join (ws : Nat) (hws : 0 < ws) :
    ∀ (n : Nat) (l : List FrameResult), l.length = n →
      ((List.range (numWindows l.length ws)).map (chunk l ws)).flatten = l := by
  intro n
  induction n using Nat.strong_induction_on with
  | _ n ih =>
    intro l hn
    rcases Nat.eq_zero_or_pos l.length with h0 | hpos
    · have hl : l = [] := List.length_eq_zero.mp h0
      subst hl
      simp [numWindows_zero ws hws]
    · rw [numWindows_succ ws l.length hws hpos, List.range_succ_eq_map, List.map_cons,
        List.flatten_cons, List.map_map]
      have hcomp : chunk l ws ∘ Nat.succ = chunk (l.drop ws) ws :=
        funext (fun w => chunk_succ l ws w)
      rw [hcomp, chunk_zero]
      have hdl : (l.drop ws).length = l.length - ws := List.length_drop ws l
      have hlt : l.length - ws < n := by omega
      have ihd := ih (l.length - ws) hlt (l.drop ws) hdl
      rw [hdl] at ihd
      rw [ihd]
      exact List.take_append_drop ws l

/-- Every window other than the last holds exactly `window_size` frames. -/
theorem chunk_length_of_not_last (l : List FrameResult) (ws w : Nat) (hws : 0 < ws)
    (h : w + 1 < numWindows l.length ws) : (chunk l ws w).length = ws := by
  have hpos : 0 < l.length := by
    by_contra h0
    have hz : l.length = 0 := by omega
    rw [hz, numWindows_zero ws hws] at h
    omega
  rw [numWindows_pos_eq ws l.length hws hpos] at h
  have hw : w + 1 ≤ (l.length - 1) / ws := by omega
  have h1 : (w + 1) * ws ≤ ((l.length - 1) / ws) * ws := Nat.mul_le_mul_right ws hw
  have h2 : ((l.length - 1) / ws) * ws ≤ l.length - 1 := Nat.div_mul_le_self _ _
  have h3 : (w + 1) * ws = w * ws + ws := Nat.succ_mul w ws
  rw [chunk_length]
  omega

/-- The last window holds `n mod window_size` frames (`window_size` when the
window size divides the frame count evenly). -/
theorem chunk_length_last (l : List FrameResult) (ws : Nat) (hws : 0 < ws)
    (hpos : 0 < l.length) :
    (chunk l ws (numWindows l.length ws - 1)).length =
      if l.length % ws = 0 then ws else l.length % ws := by
  rw [numWindows_pos_eq ws l.length hws hpos]
  set d := (l.length - 1) / ws with hd
  have hdm : ws * d + (l.length - 1) % ws = l.length - 1 := Nat.div_add_mod _ _
  have hrlt : (l.length - 1) % ws < ws := Nat.mod_lt _ hws
  set r := (l.length - 1) % ws with hr
  have hmul : d * ws = ws * d := Nat.mul_comm d ws
  have hlen : l.length = ws * d + (r + 1) := by omega
  rw [chunk_length]
  simp only [Nat.add_sub_cancel]
  rcases Nat.lt_or_ge (r + 1) ws with hlt | hge
  · have hmod : l.length % ws = r + 1 := by
      rw [hlen, Nat.mul_add_mod, Nat.mod_eq_of_lt hlt]
    have hsub : l.length - d * ws = r + 1 := by omega
    rw [hmod, hsub, if_neg (by omega)]
    exact min_eq_right (by omega)
  · have hws' : r + 1 = ws := by omega
    have hlen' : l.length = ws * (d + 1) := by rw [hlen, hws']; ring
    have hmod : l.length % ws = 0 := by rw [hlen', Nat.mul_mod_right]
    have hsub : l.length - d * ws = ws := by omega
    rw [hmod, hsub, if_pos rfl]
    exact min_self ws

/-- **C5.** For a non-empty frame-result sequence and `window_size ≥ 1`, the
summarizer partitions the frames in ascending frame-id order into consecutive
windows: all but possibly the last have exactly `window_size` frames, the last
has `n mod window_size` (or `window_size` on even division), each output row
is keyed by the frame id of its window's first member and holds the arithmetic
mean of the member frames' per-cluster filling fractions. -/
theorem summarize_partition (cn : List Nat) (df : List FrameResult) (ws : Nat)
    (hdf : df ≠ []) (hws : 1 ≤ ws) :
    summarize cn df ws none = .ok ⟨cn,
      (List.range (numWindows (sortByFrame df).length ws)).map (fun w =>
        (((chunk (sortByFrame df) ws w).headD default).frame,
          cn.map (fun c =>
            ((chunk (sortByFrame df) ws w).map
              (fun fr => (fr.clusters_filling.lookup c).getD 0)).sum
              / ((chunk (sortByFrame df) ws w).length : ℚ))))⟩ ∧
    List.Pairwise (fun a b => a.frame ≤ b.frame) (sortByFrame df) ∧
    (sortByFrame df).Perm df ∧
    ((List.range (numWindows (sortByFrame df).length ws)).map
      (chunk (sortByFrame df) ws)).flatten = sortByFrame df ∧
    (∀ w, w + 1 < numWindows (sortByFrame df).length ws →
      (chunk (sortByFrame df) ws w).length = ws) ∧
    (chunk (sortByFrame df) ws (numWindows (sortByFrame df).length ws - 1)).length =
      (if (sortByFrame df).length % ws = 0 then ws else (sortByFrame df).length % ws) := by
  have hws0 : 0 < ws := hws
  have hpos : 0 < (sortByFrame df).length := by
    have hperm := List.perm_insertionSort (fun a b : FrameResult => a.frame ≤ b.frame) df
    have := hperm.length_eq
    rcases df with _ | ⟨x, xs⟩
    · exact absurd rfl hdf
    · rw [sortByFrame, this]; simp
  refine ⟨?_, ?_, ?_, ?_, ?_, ?_⟩
  · have h : df.isEmpty = false := by simpa [List.isEmpty_iff] using hdf
    simp only [summarize, h, Bool.false_eq_true, if_false, List.length_map]
  · exact List.sorted_insertionSort _ df
  · exact List.perm_insertionSort _ df
  · exact chunks_join ws hws0 (sortByFrame df).length (sortByFrame df) rfl
  · exact fun w hw => chunk_length_of_not_last (sortByFrame df) ws w hws0 hw
  · exact chunk_length_last (sortByFrame df) ws hws0 hpos

/-- Witness for C5: apply the partition theorem to the three scenario-B frame
results with window size 2. -/
theorem summarize_partition_witness :
    (scenB ≠ [] ∧ 1 ≤ 2) ∧
    (summarize [1] scenB 2 none = .ok ⟨[1],
      (List.range (numWindows (sortByFrame scenB).length 2)).map (fun w =>
        (((chunk (sortByFrame scenB) 2 w).headD default).frame,
          [1].map (fun c =>
            ((chunk (sortByFrame scenB) 2 w).map
              (fun fr => (fr.clusters_filling.lookup c).getD 0)).sum
              / ((chunk (sortByFrame scenB) 2 w).length : ℚ))))⟩ ∧
    List.Pairwise (fun a b => a.frame ≤ b.frame) (sortByFrame scenB) ∧
    (sortByFrame scenB).Perm scenB ∧
    ((List.range (numWindows (sortByFrame scenB).length 2)).map
      (chunk (sortByFrame scenB) 2)).flatten = sortByFrame scenB ∧
    (∀ w, w + 1 < numWindows (sortByFrame scenB).length 2 →
      (chunk (sortByFrame scenB) 2 w).length = 2) ∧
    (chunk (sortByFrame scenB) 2 (numWindows (sortByFrame scenB).length 2 - 1)).length =
      (if (sortByFrame scenB).length % 2 = 0 then 2 else (sortByFrame scenB).length % 2)) :=
  ⟨⟨by decide, by decide⟩, summarize_partition [1] scenB 2 (by decide) (by decide)⟩

/-- **C2 (failing input).** The count-adjustment loop does not terminate when
the largest candidate has at least 4 members but its 2-way split is rejected:
the rejected candidate is put back unchanged, the cluster count does not grow,
and the `largest.length < 4` exit is never reached — for no amount of fuel
does the loop of `_split_clusters_to_number` exit on
`[stuckCluster]` with target 2. -/
theorem splitLoop_diverges : ∀ fuel : Nat,
    splitLoop stuckSplit 2 fuel [stuckCluster] = none ∧
      split_clusters_to_number stuckSplit fuel [stuckCluster] 2 = none := by
  intro fuel
  induction fuel with
  | zero => exact ⟨rfl, rfl⟩
  | succ n ih =>
    refine ⟨?_, ?_⟩
    · show splitLoop stuckSplit 2 n [stuckCluster] = none
      exact ih.1
    · show splitLoop stuckSplit 2 n [stuckCluster] = none
      exact ih.1

theorem firstIdxFrom_lt (p : Int × List ℚ → Bool) :
    ∀ (rows : List (Int × List ℚ)) (i : Nat), firstIdxFrom p rows = some i →
      i < rows.length := by
  intro rows
  induction rows with
  | nil => intro i h; cases h
  | cons r rest ih =>
    intro i h
    unfold firstIdxFrom at h
    by_cases hp : p r
    · rw [if_pos hp] at h
      cases h
      simp
    · rw [if_neg hp] at h
      cases hfx : firstIdxFrom p rest with
      | none => rw [hfx] at h; cases h
      | some j =>
        rw [hfx, Option.map_some'] at h
        cases h
        have := ih j hfx
        simp only [List.length_cons]
        omega

theorem takeThroughFirst_eq (p : Int × List ℚ → Bool) :
    ∀ (rows : List (Int × List ℚ)),
      takeThroughFirst p rows = (firstIdxFrom p rows).map (fun i => rows.take (i + 1)) := by
  intro rows
  induction rows with
  | nil => rfl
  | cons r rest ih =>
    unfold takeThroughFirst firstIdxFrom
    by_cases hp : p r
    · rw [if_pos hp, if_pos hp]
      rfl
    · rw [if_neg hp, if_neg hp, ih, Option.map_map, Option.map_map]
      rfl

theorem take_succ_reverse (rows : List (Int × List ℚ)) (i : Nat) (h : i < rows.length) :
    (rows.take (i + 1)).reverse = rows[i] :: (rows.take i).reverse := by
  rw [List.take_succ, List.getElem?_eq_getElem h]
  simp

theorem classifyLoop_eq_specScan (cc cols : List Nat) (rows : List (Int × List ℚ)) :
    ∀ (i : Nat), i < rows.length → ∀ (cur acc : List Nat),
      classifyLoop cc cols rows i cur acc =
        specScan cc cols ((rows.take (i + 1)).reverse) cur acc := by
  intro i
  induction i with
  | zero =>
    intro h cur acc
    rw [take_succ_reverse rows 0 h, List.take_zero, List.reverse_nil]
    unfold classifyLoop specScan
    have hg : rows.getD 0 (0, []) = rows[0] := by
      rw [List.getD_eq_getElem?_getD, List.getElem?_eq_getElem h]
      rfl
    rw [hg]
    by_cases hf : (formedClusters cc cols rows[0].2).isEmpty
    · rw [if_pos hf, if_pos hf]
    · rw [if_neg hf, if_neg hf]
      rfl
  | succ n ih =>
    intro h cur acc
    rw [take_succ_reverse rows (n + 1) h]
    unfold classifyLoop specScan
    have hg : rows.getD (n + 1) (0, []) = rows[n + 1] := by
      rw [List.getD_eq_getElem?_getD, List.getElem?_eq_getElem h]
      rfl
    rw [hg]
    by_cases hf : (formedClusters cc cols rows[n + 1].2).isEmpty
    · rw [if_pos hf, if_pos hf]
    · rw [if_neg hf, if_neg hf]
      exact ih (by omega) _ _

theorem anchorWindows_eq (cc cols : List Nat) (rows : List (Int × List ℚ)) :
    anchorWindows cc cols rows = (anchorIndex cc cols rows).map (fun i => rows.take (i + 1)) := by
  unfold anchorWindows anchorIndex
  rw [takeThroughFirst_eq]
  cases hfa : firstIdxFrom (fun r => allFormedRow cc cols r.2) rows with
  | some i => rfl
  | none =>
    simp only [Option.map_none']
    by_cases hm : (rows.map (fun r => formedCountRow cc cols r.2)).foldl max 0 = 0
    · rw [if_pos hm, if_pos hm]
      rfl
    · rw [if_neg hm, if_neg hm, takeThroughFirst_eq]

theorem anchorIndex_lt (cc cols : List Nat) (rows : List (Int × List ℚ)) (i : Nat)
    (h : anchorIndex cc cols rows = some i) : i < rows.length := by
  unfold anchorIndex at h
  cases hfa : firstIdxFrom (fun r => allFormedRow cc cols r.2) rows with
  | some j =>
    rw [hfa] at h
    cases h
    exact firstIdxFrom_lt _ rows i hfa
  | none =>
    rw [hfa] at h
    by_cases hm : (rows.map (fun r => formedCountRow cc cols r.2)).foldl max 0 = 0
    · rw [if_pos hm] at h; cases h
    · rw [if_neg hm] at h
      exact firstIdxFrom_lt _ rows i h

/-- **C1.** On every binarized window summary with non-zero cluster columns
(and at least one window), `Trajectory.classify` computes exactly what the
claim describes: anchor on the earliest all-formed window (falling back to the
earliest window with the maximum count of simultaneously-1 clusters), scan
backward appending clusters that drop from formed to not-formed in ascending
cluster-id order with early stop once nothing remains formed, append the
clusters still formed at the earliest window, and return the break sequence
reversed; on scenario C it returns `[1, 2]`. -/
theorem classify_meets_spec :
    (∀ s : Summary, clusterColumns s ≠ [] → s.rows ≠ [] →
      classify s = (match classifySpec s with
        | some l => Except.ok l
        | none =>
          Except.error
            "No clusters are formed in the trajectory. Cannot determine formation order.")) ∧
    classify scenC = .ok [1, 2] := by
  constructor
  · intro s h1 h2
    have hcc : (clusterColumns s).isEmpty = false := by
      simpa [List.isEmpty_iff] using h1
    have hrne : sortRows s.rows ≠ [] := by
      intro hcon
      have hperm := List.perm_insertionSort (fun a b : Int × List ℚ => a.1 ≤ b.1) s.rows
      rw [sortRows] at hcon
      rw [hcon] at hperm
      exact h2 hperm.nil_eq.symm
    have hrows : (sortRows s.rows).isEmpty = false := by
      simpa [List.isEmpty_iff] using hrne
    unfold classify classifySpec
    simp only [hcc, hrows, Bool.false_eq_true, if_false]
    rw [anchorWindows_eq]
    cases ha : anchorIndex (clusterColumns s) s.cols (sortRows s.rows) with
    | none => rfl
    | some i =>
      have hi := anchorIndex_lt _ _ _ _ ha
      simp only [Option.map_some']
      rw [take_succ_reverse _ _ hi]
      simp only []
      rw [classifyLoop_eq_specScan _ _ _ i hi, take_succ_reverse _ _ hi]
      have hg : (sortRows s.rows).getD i (0, []) = (sortRows s.rows)[i] := by
        rw [List.getD_eq_getElem?_getD, List.getElem?_eq_getElem hi]
        rfl
      rw [hg]
  · decide

/-- Witness for C1: the refinement applied at scenario C. -/
theorem classify_meets_spec_witness :
    (clusterColumns scenC ≠ [] ∧ scenC.rows ≠ []) ∧
    classify scenC = (match classifySpec scenC with
      | some l => Except.ok l
      | none =>
        Except.error
          "No clusters are formed in the trajectory. Cannot determine formation order.") :=
  ⟨⟨by decide, by decide⟩, classify_meets_spec.1 scenC (by decide) (by decide)⟩

/-- **C7.** On a binarized window summary (with at least one window) in which
no non-zero cluster equals 1 in any window, `Trajectory.classify` fails with
an error and produces no formation order. -/
theorem classify_all_zero_error (s : Summary) (hrows : s.rows ≠ [])
    (hz : ∀ r ∈ s.rows, ∀ c ∈ clusterColumns s, rowVal s.cols r.2 c ≠ 1) :
    ∃ msg, classify s = .error msg := by
  unfold classify
  by_cases hcc : (clusterColumns s).isEmpty
  · exact ⟨_, by rw [if_pos hcc]⟩
  · rw [Bool.not_eq_true] at hcc
    simp only [hcc, Bool.false_eq_true, if_false]
    have hrne : sortRows s.rows ≠ [] := by
      intro hcon
      have hperm := List.perm_insertionSort (fun a b : Int × List ℚ => a.1 ≤ b.1) s.rows
      rw [sortRows] at hcon
      rw [hcon] at hperm
      exact hrows hperm.nil_eq.symm
    have hrows' : (sortRows s.rows).isEmpty = false := by
      simpa [List.isEmpty_iff] using hrne
    simp only [hrows', Bool.false_eq_true, if_false]
    have hmem : ∀ r ∈ sortRows s.rows, ∀ c ∈ clusterColumns s, rowVal s.cols r.2 c ≠ 1 := by
      intro r hr
      have hperm := List.perm_insertionSort (fun a b : Int × List ℚ => a.1 ≤ b.1) s.rows
      exact hz r (hperm.mem_iff.mp hr)
    have hcount : ∀ r ∈ sortRows s.rows, formedCountRow (clusterColumns s) s.cols r.2 = 0 := by
      intro r hr
      unfold formedCountRow
      rw [List.length_eq_zero, List.filter_eq_nil]
      intro c hc
      simp only [decide_eq_true_eq]
      exact hmem r hr c hc
    have hall : ∀ r ∈ sortRows s.rows, allFormedRow (clusterColumns s) s.cols r.2 = false := by
      intro r hr
      have hne : clusterColumns s ≠ [] := by
        intro hl
        rw [hl] at hcc
        simp at hcc
      obtain ⟨c0, hc0⟩ := List.exists_mem_of_ne_nil _ hne
      unfold allFormedRow
      rw [List.all_eq_false]
      exact ⟨c0, hc0, by simpa using hmem r hr c0 hc0⟩
    have hfa : firstIdxFrom (fun r => allFormedRow (clusterColumns s) s.cols r.2)
        (sortRows s.rows) = none := by
      generalize hrl : sortRows s.rows = rl at hall
      clear hrl hrne hrows' hcount hmem
      induction rl with
      | nil => rfl
      | cons r rest ih =>
        unfold firstIdxFrom
        rw [if_neg ?_, ih ?_]
        · rfl
        · intro x hx
          exact hall x (List.mem_cons_of_mem r hx)
        · rw [hall r (List.mem_cons_self r rest)]
          simp
    have hfold : ((sortRows s.rows).map
        (fun r => formedCountRow (clusterColumns s) s.cols r.2)).foldl max 0 = 0 := by
      generalize hrl : sortRows s.rows = rl at hcount
      clear hrl hrne hrows' hall hfa hmem
      induction rl with
      | nil => rfl
      | cons r rest ih =>
        simp only [List.map_cons, List.foldl_cons]
        rw [hcount r (List.mem_cons_self r rest)]
        simp only [Nat.max_self]
        exact ih (fun x hx => hcount x (List.mem_cons_of_mem r hx))
    refine ⟨"No clusters are formed in the trajectory. Cannot determine formation order.", ?_⟩
    unfold anchorIndex
    rw [hfa, hfold]
    rfl

/-- Witness for C7: a summary with one non-zero cluster column that is 0 in
both windows. -/
theorem classify_all_zero_error_witness :
    ((⟨[1], [(0, [0]), (10, [0])]⟩ : Summary).rows ≠ [] ∧
      (∀ r ∈ (⟨[1], [(0, [0]), (10, [0])]⟩ : Summary).rows,
        ∀ c ∈ clusterColumns ⟨[1], [(0, [0]), (10, [0])]⟩,
          rowVal (⟨[1], [(0, [0]), (10, [0])]⟩ : Summary).cols r.2 c ≠ 1)) ∧
    ∃ msg, classify ⟨[1], [(0, [0]), (10, [0])]⟩ = .error msg :=
  ⟨⟨by decide, by decide⟩,
    classify_all_zero_error ⟨[1], [(0, [0]), (10, [0])]⟩ (by decide) (by decide)⟩
